import Mathlib

/-!
Verification development for the nvblox multi-mapper orchestrator and the
CUDA execution-stream ownership model.

The definitions below shallowly embed:
- `src/nvblox/include/nvblox/mapper/multi_mapper.h` (the `MappingType`
  enumeration, its predicate functions, the `toString` specialization, and
  the `MultiMapper` class interface), and
- `src/nvblox/src/core/cuda_stream.cpp` (the `CudaStream` /
  `CudaStreamOwning` stream wrappers).

The bodies of the `MultiMapper` member functions live in a translation unit
that is not part of the available sources (only the header with the
declarations and documentation comments is); those operations are modelled
from the specification and are marked `Modelled from the spec:` in their
doc comments.
-/

set_option autoImplicit false

/-- The 5-variant `MappingType` enumeration from multi_mapper.h:
kStaticTsdf, kStaticOccupancy, kDynamic, kHumanWithStaticTsdf,
kHumanWithStaticOccupancy. -/
inductive MappingType where
  | kStaticTsdf
  | kStaticOccupancy
  | kDynamic
  | kHumanWithStaticTsdf
  | kHumanWithStaticOccupancy
deriving DecidableEq

/-- From multi_mapper.h: whether the masked mapper is used for human mapping.
Mirrors the two-way comparison in the source. -/
def isHumanMapping (mapping_type : MappingType) : Bool :=
  if mapping_type = MappingType.kHumanWithStaticTsdf ∨
     mapping_type = MappingType.kHumanWithStaticOccupancy then
    true
  else
    false

/-- From multi_mapper.h: whether the masked mapper is used for dynamic
mapping. -/
def isDynamicMapping (mapping_type : MappingType) : Bool :=
  if mapping_type = MappingType.kDynamic then
    true
  else
    false

/-- From multi_mapper.h: whether both the unmasked and masked mapper are
active, i.e. the masked mapper is used for dynamic/human mapping. -/
def isUsingBothMappers (mapping_type : MappingType) : Bool :=
  if isHumanMapping mapping_type || isDynamicMapping mapping_type then
    true
  else
    false

/-- From multi_mapper.h: whether the unmasked mapper is doing occupancy. -/
def isStaticOccupancy (mapping_type : MappingType) : Bool :=
  if mapping_type = MappingType.kStaticOccupancy ∨
     mapping_type = MappingType.kHumanWithStaticOccupancy then
    true
  else
    false

/-- From multi_mapper.h: the `toString` specialization for `MappingType`,
restricted to the five named enumerators (the switch cases of the source). -/
def toStringMappingType (mapping_type : MappingType) : String :=
  match mapping_type with
  | MappingType.kStaticTsdf => "kStaticTsdf"
  | MappingType.kStaticOccupancy => "kStaticOccupancy"
  | MappingType.kDynamic => "kDynamic"
  | MappingType.kHumanWithStaticTsdf => "kHumanWithStaticTsdf"
  | MappingType.kHumanWithStaticOccupancy => "kHumanWithStaticOccupancy"

/-- The underlying integer value of each named `MappingType` enumerator
(a C++ scoped enum with default underlying values 0..4). -/
def MappingType.toRaw : MappingType → Int
  | MappingType.kStaticTsdf => 0
  | MappingType.kStaticOccupancy => 1
  | MappingType.kDynamic => 2
  | MappingType.kHumanWithStaticTsdf => 3
  | MappingType.kHumanWithStaticOccupancy => 4

/-- From multi_mapper.h: the `toString` switch over the raw underlying value
of a `MappingType`. A C++ scoped enum may hold any value of its underlying
integer type, so the function is modelled on `Int`. The five named cases
return their name; the `default` case executes `CHECK(false)`, a
process-terminating fatal assertion, modelled as `none` (no string value is
ever returned on that path). -/
def toStringMappingTypeRaw (v : Int) : Option String :=
  if v = 0 then some "kStaticTsdf"
  else if v = 1 then some "kStaticOccupancy"
  else if v = 2 then some "kDynamic"
  else if v = 3 then some "kHumanWithStaticTsdf"
  else if v = 4 then some "kHumanWithStaticOccupancy"
  else none

/-! ## CUDA stream model (src/nvblox/src/core/cuda_stream.cpp) -/

/-- An item of asynchronous device work enqueued on a stream, identified by
an abstract id. -/
abbrev WorkItem := Nat

/-- The observable state of one CUDA stream: the work enqueued but not yet
completed, the work whose effects are already observable, and whether the
underlying device queue has been released. -/
structure CudaStreamState where
  pending : List WorkItem
  completed : List WorkItem
  released : Bool
deriving DecidableEq

/-- `cudaStreamCreateWithFlags` (called by the `CudaStreamOwning`
constructor): a fresh queue with no work and not released. -/
def cudaStreamCreate : CudaStreamState :=
  { pending := [], completed := [], released := false }

/-- Enqueuing one item of asynchronous work on the stream. -/
def enqueueAsync (s : CudaStreamState) (w : WorkItem) : CudaStreamState :=
  { s with pending := s.pending ++ [w] }

/-- `cudaStreamSynchronize`: blocks the calling thread until all previously
enqueued work on the queue has completed; afterwards nothing is pending and
the effects of all previously pending work are observable. -/
def cudaStreamSynchronize (s : CudaStreamState) : CudaStreamState :=
  { s with pending := [], completed := s.completed ++ s.pending }

/-- `cudaStreamDestroy`: releases the underlying device queue. -/
def cudaStreamDestroy (s : CudaStreamState) : CudaStreamState :=
  { s with released := true }

/-- From cuda_stream.cpp: `CudaStream::synchronize` calls
`cudaStreamSynchronize` on the wrapped queue. -/
def CudaStream.synchronize (s : CudaStreamState) : CudaStreamState :=
  cudaStreamSynchronize s

/-- From cuda_stream.cpp: the `CudaStreamOwning` destructor body, in source
order: `this->synchronize();` then
`checkCudaErrors(cudaStreamDestroy(stream_));`. The release is applied to
the state produced by the synchronize call. -/
def CudaStreamOwning.destruct (s : CudaStreamState) : CudaStreamState :=
  cudaStreamDestroy (CudaStream.synchronize s)

/-! ## MultiMapper data model (multi_mapper.h) -/

/-- `EsdfMode` from the mapper interface: 2D or 3D distance field. -/
inductive EsdfMode where
  | k2D
  | k3D
deriving DecidableEq

/-- `MemoryType` selector for where layers are stored. -/
inductive MemoryType where
  | kDevice
  | kUnified
  | kHost
deriving DecidableEq

/-- A rigid transform (pose). The claims under verification never inspect
the numeric content of a transform; it is carried for interface fidelity. -/
structure Transform where
  tx : Int
  ty : Int
  tz : Int
deriving DecidableEq

/-- A pinhole camera intrinsics model. The claims under verification never
inspect the numeric content; it is carried for interface fidelity. -/
structure Camera where
  fu : Int
  fv : Int
  cu : Int
  cv : Int
deriving DecidableEq

/-- A pixel coordinate (row, column). -/
abbrev Pixel := Nat × Nat

/-- A voxel coordinate in the layer grid. -/
abbrev Voxel := Nat × Nat × Nat

/-- An image: dimensions plus a per-pixel value function. -/
structure Image (α : Type) where
  rows : Nat
  cols : Nat
  pix : Pixel → α

/-- A raw input depth frame: every pixel carries a depth value. Depth values
are abstracted to `Nat`; the routing logic under verification never does
arithmetic on them. -/
abbrev DepthImage := Image Nat

/-- A depth frame produced by mask-based splitting: a pixel is either a
valid depth value taken from the input frame or invalid (masked out). -/
abbrev SplitDepthImage := Image (Option Nat)

/-- A single-channel mask image, interpreted as 0 = non-masked,
greater than 0 = masked. -/
abbrev MonoImage := Image Nat

/-- A color frame; color values are abstracted to `Nat`. -/
abbrev ColorImage := Image Nat

/-- A color frame produced by mask-based splitting. -/
abbrev SplitColorImage := Image (Option Nat)

/-- Lifting a full input depth frame to a split-frame representation in
which every pixel is valid: the full, unsplit frame. -/
def fullDepthFrame (f : DepthImage) : SplitDepthImage :=
  { rows := f.rows, cols := f.cols, pix := fun p => some (f.pix p) }

/-- Lifting a full input color frame to a split-frame representation in
which every pixel is valid. -/
def fullColorFrame (f : ColorImage) : SplitColorImage :=
  { rows := f.rows, cols := f.cols, pix := fun p => some (f.pix p) }

/-- Modelled from the spec: the FrameSplitter contract (§6
`split(frame, mask) -> (maskedFrame, unmaskedFrame)`), with the mask given
as a per-pixel value in the depth frame's pixel grid. A pixel whose mask
value is greater than 0 goes to the masked output and is invalid in the
unmasked output; a pixel whose mask value is 0 goes to the unmasked output
and is invalid in the masked output. Returns (masked, unmasked). -/
def splitDepthImage (frame : DepthImage) (maskAt : Pixel → Nat) :
    SplitDepthImage × SplitDepthImage :=
  ({ rows := frame.rows, cols := frame.cols,
     pix := fun p => if 0 < maskAt p then some (frame.pix p) else none },
   { rows := frame.rows, cols := frame.cols,
     pix := fun p => if 0 < maskAt p then none else some (frame.pix p) })

/-- Modelled from the spec: the FrameSplitter contract applied to a color
frame. Returns (masked, unmasked). -/
def splitColorImage (frame : ColorImage) (maskAt : Pixel → Nat) :
    SplitColorImage × SplitColorImage :=
  ({ rows := frame.rows, cols := frame.cols,
     pix := fun p => if 0 < maskAt p then some (frame.pix p) else none },
   { rows := frame.rows, cols := frame.cols,
     pix := fun p => if 0 < maskAt p then none else some (frame.pix p) })

/-- Modelled from the spec: the `ImageMasker` collaborator (§2, §4.2). Its
geometry kernel is out of scope; what the orchestrator consumes is the
pixel correspondence that reprojects each depth-frame pixel into the mask
camera's image, induced by the depth-to-mask-camera transform `T_CM_CD`
and the two intrinsics models. -/
structure ImageMasker where
  reproject : Transform → Camera → Camera → Pixel → Pixel

/-- Modelled from the spec: the `DynamicsDetection` collaborator (§6
`detect(freespaceLayer, minComponentSize) -> cleanedMask`), producing a
cleaned dynamic mask in the depth frame's pixel grid from the freespace
layer and the connected-component size threshold. Its internal algorithm is
out of scope; it is carried as an abstract function. -/
structure DynamicsDetection where
  detect : (Voxel → Bool) → Int → Nat → Nat → Pixel → Nat

/-- The reprojected mask value seen at a depth-frame pixel: the mask image
sampled at the reprojected pixel coordinate. -/
def reprojectedMaskAt (mask : MonoImage) (reproj : Pixel → Pixel) :
    Pixel → Nat :=
  fun p => mask.pix (reproj p)

/-- Per-engine parameter struct (`MapperParams`). Its fields are consumed
by the engine internals, which are out of scope; it is carried opaquely. -/
structure MapperParams where
  value : Int
deriving DecidableEq

/-- A single-pipeline mapping engine ("Mapper", external collaborator,
§2/§6): the frames it has received, its per-voxel layer state relevant to
the ESDF coordination rule, its mesh content, and its parameters.
`candidateSites` is the set of ESDF sites the engine's own integration
computed; `esdfSites` is the site set of its ESDF output after the last
`updateEsdf`; `freespace` marks the voxels its freespace layer currently
considers free. -/
structure Mapper where
  depthFrames : List SplitDepthImage
  colorFrames : List SplitColorImage
  candidateSites : Voxel → Bool
  freespace : Voxel → Bool
  esdfSites : Voxel → Bool
  meshBlocks : List Nat
  mapperParams : MapperParams

/-- A freshly constructed engine: no frames received, empty layers. -/
def Mapper.init : Mapper :=
  { depthFrames := []
  , colorFrames := []
  , candidateSites := fun _ => false
  , freespace := fun _ => false
  , esdfSites := fun _ => false
  , meshBlocks := []
  , mapperParams := { value := 0 } }

/-- The engine receives one (possibly split) depth frame
(`Mapper::integrateDepth`, §6). The integration kernel itself is out of
scope; the model records the frame the engine received. -/
def Mapper.integrateDepthFrame (m : Mapper) (f : SplitDepthImage) : Mapper :=
  { m with depthFrames := m.depthFrames ++ [f] }

/-- The engine receives one (possibly split) color frame
(`Mapper::integrateColor`, §6). -/
def Mapper.integrateColorFrame (m : Mapper) (f : SplitColorImage) : Mapper :=
  { m with colorFrames := m.colorFrames ++ [f] }

/-- The engine's ESDF update (`Mapper::updateEsdf` with an optional site
exclusion predicate, §6): the output site set is the engine's own candidate
site set, minus any voxel the exclusion predicate (when supplied) accepts. -/
def Mapper.runEsdfUpdate (m : Mapper) (excl : Option (Voxel → Bool)) :
    Mapper :=
  match excl with
  | some e => { m with esdfSites := fun v => m.candidateSites v && !(e v) }
  | none => { m with esdfSites := m.candidateSites }

/-- The engine's most recently received depth frame. -/
def Mapper.lastDepthFrame (m : Mapper) : Option SplitDepthImage :=
  m.depthFrames.getLast?

/-- `MultiMapper::Params` from multi_mapper.h: the minimum number of pixels
of a connected component in the mask image to count as a dynamic
detection. -/
structure MultiMapperParams where
  connected_mask_component_size_threshold : Int
deriving DecidableEq

/-- `kDefaultConnectedMaskComponentSizeThreshold` from multi_mapper.h. -/
def kDefaultConnectedMaskComponentSizeThreshold : Int := 2000

/-- The default `MultiMapper::Params` value. -/
def MultiMapperParams.default : MultiMapperParams :=
  { connected_mask_component_size_threshold :=
      kDefaultConnectedMaskComponentSizeThreshold }

/-- The state of a `MultiMapper` orchestrator, mirroring the member list of
the class in multi_mapper.h. The two engines are the shared-ownership
handles `masked_mapper_` and `unmasked_mapper_`; a C++ `shared_ptr` that
was never assigned is null, modelled as `none`. The split-frame and overlay
members are the pre-allocated buffers reused across calls. The
`mesh_bandwidth_limit_mbps` setting is the configured bandwidth estimate
that drives the mesh truncation policy of `updateMesh` (a non-positive
value disables truncation, per the header's documentation comment). -/
structure MultiMapperState where
  mapping_type_ : MappingType
  esdf_mode_ : EsdfMode
  params_ : MultiMapperParams
  dynamic_detector_ : DynamicsDetection
  cleaned_dynamic_mask_ : MonoImage
  image_masker_ : ImageMasker
  depth_frame_unmasked_ : SplitDepthImage
  depth_frame_masked_ : SplitDepthImage
  color_frame_unmasked_ : SplitColorImage
  color_frame_masked_ : SplitColorImage
  masked_mapper_ : Option Mapper
  unmasked_mapper_ : Mapper
  cuda_stream_ : CudaStreamState
  mesh_bandwidth_limit_mbps : Int

/-- An empty pre-allocated image buffer (lazily resized on first use). -/
def emptyImage {α : Type} (z : α) : Image α :=
  { rows := 0, cols := 0, pix := fun _ => z }

/-- Modelled from the spec: the `MultiMapper` constructor (§4.1).
Construction stores the mapping mode and ESDF mode, allocates the unmasked
engine always, and allocates the masked engine iff
`isUsingBothMappers(mapping_type)`; all frame buffers start empty and the
parameter struct takes its default. The voxel size and memory-residency
arguments configure layer storage inside the engines (out of scope) and do
not affect the orchestration state modelled here; the collaborator objects
(`ImageMasker`, `DynamicsDetection`) are constructed with their own
internal geometry, abstracted as the given functions. -/
def MultiMapper.create (mapping_type : MappingType) (esdf_mode : EsdfMode)
    (memory_type : MemoryType) (cuda_stream : CudaStreamState)
    (masker : ImageMasker) (detector : DynamicsDetection) :
    MultiMapperState :=
  let _ := memory_type
  { mapping_type_ := mapping_type
  , esdf_mode_ := esdf_mode
  , params_ := MultiMapperParams.default
  , dynamic_detector_ := detector
  , cleaned_dynamic_mask_ := emptyImage 0
  , image_masker_ := masker
  , depth_frame_unmasked_ := emptyImage none
  , depth_frame_masked_ := emptyImage none
  , color_frame_unmasked_ := emptyImage none
  , color_frame_masked_ := emptyImage none
  , masked_mapper_ :=
      if isUsingBothMappers mapping_type then some Mapper.init else none
  , unmasked_mapper_ := Mapper.init
  , cuda_stream_ := cuda_stream
  , mesh_bandwidth_limit_mbps := -1 }

/-- `MultiMapper::setMultiMapperParams` from multi_mapper.h: stores the
parameter struct. -/
def MultiMapperState.setMultiMapperParams (st : MultiMapperState)
    (multi_mapper_params : MultiMapperParams) : MultiMapperState :=
  { st with params_ := multi_mapper_params }

/-- Modelled from the spec: `MultiMapper::setMapperParams` (§4.1). The
unmasked engine always receives its struct; the masked-engine struct is
consumed only when a masked engine exists — supplying it otherwise is a
silent no-op. -/
def MultiMapperState.setMapperParams (st : MultiMapperState)
    (unmasked_mapper_params : MapperParams)
    (masked_mapper_params : Option MapperParams) : MultiMapperState :=
  { st with
    unmasked_mapper_ :=
      { st.unmasked_mapper_ with mapperParams := unmasked_mapper_params }
  , masked_mapper_ :=
      match st.masked_mapper_, masked_mapper_params with
      | some m, some p => some { m with mapperParams := p }
      | some m, none => some m
      | none, _ => none }

/-- Modelled from the spec: the single-frame `integrateDepth` overload
(§4.2, for kStaticTsdf/kStaticOccupancy/kDynamic). The full, unsplit frame
is fed to the unmasked engine. In Dynamic mode a cleaned dynamic mask is
additionally derived from the unmasked engine's freespace layer by the
DynamicsDetection collaborator, the frame is split with it, and the masked
(dynamic) sub-frame is routed to the masked engine. -/
def MultiMapperState.integrateDepth (st : MultiMapperState)
    (depth_frame : DepthImage) (T_L_CD : Transform) (depth_camera : Camera)
    (update_time_ms : Option Int) : MultiMapperState :=
  let _ := T_L_CD
  let _ := depth_camera
  let _ := update_time_ms
  let st1 :=
    { st with
      unmasked_mapper_ :=
        st.unmasked_mapper_.integrateDepthFrame (fullDepthFrame depth_frame) }
  if isDynamicMapping st.mapping_type_ then
    let dmask :=
      st.dynamic_detector_.detect st.unmasked_mapper_.freespace
        st.params_.connected_mask_component_size_threshold
        depth_frame.rows depth_frame.cols
    let parts := splitDepthImage depth_frame dmask
    { st1 with
      masked_mapper_ :=
        st1.masked_mapper_.map (fun m => m.integrateDepthFrame parts.1)
    , depth_frame_masked_ := parts.1
    , depth_frame_unmasked_ := parts.2
    , cleaned_dynamic_mask_ :=
        { rows := depth_frame.rows, cols := depth_frame.cols, pix := dmask } }
  else
    st1

/-- Modelled from the spec: the dual-frame `integrateDepth` overload (§4.2,
for kHumanWithStaticTsdf/kHumanWithStaticOccupancy). The mask is
reprojected from the mask camera's frame into the depth camera's frame via
`T_CM_CD` and the two intrinsics (through the ImageMasker collaborator),
the frame is split by the reprojected mask into masked/unmasked sub-frames
(reusing the pre-sized buffers), the unmasked sub-frame is integrated into
the unmasked engine and the masked sub-frame into the masked engine. The
spec defines this overload only for the human modes, so outside them the
state is unchanged. -/
def MultiMapperState.integrateDepthMasked (st : MultiMapperState)
    (depth_frame : DepthImage) (mask : MonoImage) (T_L_CD T_CM_CD : Transform)
    (depth_camera mask_camera : Camera) : MultiMapperState :=
  let _ := T_L_CD
  if isHumanMapping st.mapping_type_ then
    let maskAt :=
      reprojectedMaskAt mask
        (st.image_masker_.reproject T_CM_CD depth_camera mask_camera)
    let parts := splitDepthImage depth_frame maskAt
    { st with
      unmasked_mapper_ := st.unmasked_mapper_.integrateDepthFrame parts.2
    , masked_mapper_ :=
        st.masked_mapper_.map (fun m => m.integrateDepthFrame parts.1)
    , depth_frame_masked_ := parts.1
    , depth_frame_unmasked_ := parts.2 }
  else
    st

/-- Modelled from the spec: the single-frame `integrateColor` overload
(§4.2): the full, unsplit color frame is fed to the unmasked engine. -/
def MultiMapperState.integrateColor (st : MultiMapperState)
    (color_frame : ColorImage) (T_L_C : Transform) (camera : Camera) :
    MultiMapperState :=
  let _ := T_L_C
  let _ := camera
  { st with
    unmasked_mapper_ :=
      st.unmasked_mapper_.integrateColorFrame (fullColorFrame color_frame) }

/-- Modelled from the spec: the dual-frame `integrateColor` overload (§4.2,
for the human modes). Per the header this overload takes a single camera:
the mask is given in the color camera's own frame, so no reprojection is
involved; the frame is split by the mask and routed to the two engines. -/
def MultiMapperState.integrateColorMasked (st : MultiMapperState)
    (color_frame : ColorImage) (mask : MonoImage) (T_L_C : Transform)
    (camera : Camera) : MultiMapperState :=
  let _ := T_L_C
  let _ := camera
  if isHumanMapping st.mapping_type_ then
    let parts := splitColorImage color_frame mask.pix
    { st with
      unmasked_mapper_ := st.unmasked_mapper_.integrateColorFrame parts.2
    , masked_mapper_ :=
        st.masked_mapper_.map (fun m => m.integrateColorFrame parts.1)
    , color_frame_masked_ := parts.1
    , color_frame_unmasked_ := parts.2 }
  else
    st

/-- Modelled from the spec: `MultiMapper::updateEsdf` (§4.3). Each active
engine's distance-field update is triggered. In Dynamic mode only, the
unmasked engine's update is given an exclusion predicate that is exactly
the engine's freespace layer as read at this call (evaluated fresh, not
cached): any voxel currently marked free is excluded from that engine's
site set. No other engine and no other mode receives an exclusion
predicate. -/
def MultiMapperState.updateEsdf (st : MultiMapperState) : MultiMapperState :=
  let exclusion : Option (Voxel → Bool) :=
    if isDynamicMapping st.mapping_type_ then
      some st.unmasked_mapper_.freespace
    else
      none
  { st with
    unmasked_mapper_ := st.unmasked_mapper_.runEsdfUpdate exclusion
  , masked_mapper_ :=
      if isUsingBothMappers st.mapping_type_ then
        st.masked_mapper_.map (fun m => m.runEsdfUpdate none)
      else
        st.masked_mapper_ }

/-- A serialized mesh, as returned by `updateMesh`. Mesh content is
abstracted to a list of serialized block ids; its size is the length. -/
structure SerializedMesh where
  blocks : List Nat
deriving DecidableEq

/-- Modelled from the spec: the full serialized mesh for the configured
mode (§4.3). Engines running an occupancy-only representation without a
signed-distance layer do not produce a mesh and are skipped; per the §3
table the masked engine is always occupancy, so the serialized mesh comes
from the unmasked engine exactly when that engine runs a signed-distance
layer, i.e. when `isStaticOccupancy` is false. -/
def MultiMapperState.serializedFullMesh (st : MultiMapperState) : List Nat :=
  if isStaticOccupancy st.mapping_type_ then [] else
    st.unmasked_mapper_.meshBlocks

/-- Modelled from the spec: the size budget derived from the configured
bandwidth estimate ("estimated transmission budget", §4.3). Units are
abstracted: a positive configured estimate yields the corresponding
block-count budget. -/
def serializedMeshSizeBudget (mesh_bandwidth_limit_mbps : Int) : Nat :=
  mesh_bandwidth_limit_mbps.toNat

/-- Modelled from the spec: `MultiMapper::updateMesh` (§4.3 and the header
documentation comment). Mesh extraction is triggered on the engines that
produce a mesh and the result serialized. If `serialize_full_mesh` is set
the full mesh is returned with no truncation. Otherwise, if the configured
`mesh_bandwidth_limit_mbps` is positive, the serialized mesh is truncated
to the size budget derived from it (the viewpoint transform, when supplied,
steers which content the out-of-scope serializer keeps first; the model
keeps the leading blocks). A non-positive limit disables truncation. -/
def MultiMapperState.updateMesh (st : MultiMapperState)
    (maybe_T_L_C : Option Transform) (serialize_full_mesh : Bool) :
    SerializedMesh :=
  let _ := maybe_T_L_C
  let full := st.serializedFullMesh
  if serialize_full_mesh then
    { blocks := full }
  else if 0 < st.mesh_bandwidth_limit_mbps then
    { blocks :=
        full.take (serializedMeshSizeBudget st.mesh_bandwidth_limit_mbps) }
  else
    { blocks := full }

/-- From multi_mapper.h: the const accessor
`const Mapper& masked_mapper() const { return *masked_mapper_.get(); }`.
It dereferences the stored shared-ownership handle with no null check; the
dereference is modelled as an `Option`, where `none` records the undefined
dereference of a null handle (no masked engine exists). -/
def MultiMapperState.maskedMapperAccess (st : MultiMapperState) :
    Option Mapper :=
  match st.masked_mapper_ with
  | some m => some m
  | none => none

/-! ## Theorems -/

/-- The five `MappingType` enumerators, in declaration order. -/
def allMappingTypes : List MappingType :=
  [ MappingType.kStaticTsdf
  , MappingType.kStaticOccupancy
  , MappingType.kDynamic
  , MappingType.kHumanWithStaticTsdf
  , MappingType.kHumanWithStaticOccupancy ]

/-- C4: For all 5 `MappingType` values, `isUsingBothMappers m` equals
`isHumanMapping m || isDynamicMapping m`, and the four predicates match the
§3 truth table exactly: `isHumanMapping` is true exactly for the two Human
variants, `isDynamicMapping` exactly for kDynamic, `isUsingBothMappers`
exactly for kDynamic and the two Human variants, and `isStaticOccupancy`
exactly for kStaticOccupancy and kHumanWithStaticOccupancy. -/
theorem mappingPredicates_truth_table :
    (∀ m : MappingType,
       isUsingBothMappers m = (isHumanMapping m || isDynamicMapping m)) ∧
    allMappingTypes.map isHumanMapping
      = [false, false, false, true, true] ∧
    allMappingTypes.map isDynamicMapping
      = [false, false, true, false, false] ∧
    allMappingTypes.map isUsingBothMappers
      = [false, false, true, true, true] ∧
    allMappingTypes.map isStaticOccupancy
      = [false, true, false, false, true] := by
  refine ⟨fun m => ?_, by decide, by decide, by decide, by decide⟩
  cases m <;> rfl

/-- C6: Passing a value outside the 5-variant enumeration (i.e. an
underlying integer that is not the raw value of any named enumerator) to
`toStringMappingTypeRaw` reaches the `default` case, a process-terminating
fatal assertion (`CHECK(false)`), modelled as `none`: no string value is
returned and no recoverable error is produced. -/
theorem toStringRaw_fatal_outside_enum (v : Int)
    (h : ∀ m : MappingType, v ≠ MappingType.toRaw m) :
    toStringMappingTypeRaw v = none := by
  have h0 := h MappingType.kStaticTsdf
  have h1 := h MappingType.kStaticOccupancy
  have h2 := h MappingType.kDynamic
  have h3 := h MappingType.kHumanWithStaticTsdf
  have h4 := h MappingType.kHumanWithStaticOccupancy
  simp only [MappingType.toRaw] at h0 h1 h2 h3 h4
  simp [toStringMappingTypeRaw, h0, h1, h2, h3, h4]

/-- Witness for C6 at the concrete out-of-range value 5. -/
theorem toStringRaw_fatal_outside_enum_witness :
    (∀ m : MappingType, (5 : Int) ≠ MappingType.toRaw m) ∧
    toStringMappingTypeRaw 5 = none :=
  ⟨fun m => by cases m <;> decide,
   toStringRaw_fatal_outside_enum 5 (fun m => by cases m <;> decide)⟩

/-- C7: Restricted to the 5 valid `MappingType` values, name rendering is a
bijection onto 5 pairwise-distinct non-empty strings: the list of the five
rendered names has no duplicate, and every variant's name has positive
length. -/
theorem toString_distinct_nonempty :
    (allMappingTypes.map toStringMappingType).Nodup ∧
    ∀ m : MappingType, 0 < (toStringMappingType m).length := by
  refine ⟨by decide, fun m => ?_⟩
  cases m <;> decide

/-- C2: The `CudaStreamOwning` destructor first synchronizes (after which
nothing is pending on the queue) and only then releases the queue: the
state to which `cudaStreamDestroy` is applied has an empty pending list, so
the queue is never released while enqueued work is still pending. After
destruction the queue is released, nothing is pending, and the effects of
all previously enqueued work — including work enqueued immediately before
destruction — are observable in the completed list. -/
theorem owningStream_drains_before_release (s : CudaStreamState) :
    (CudaStream.synchronize s).pending = [] ∧
    (CudaStreamOwning.destruct s).released = true ∧
    (CudaStreamOwning.destruct s).pending = [] ∧
    (CudaStreamOwning.destruct s).completed = s.completed ++ s.pending ∧
    ∀ w : WorkItem,
      (CudaStreamOwning.destruct (enqueueAsync s w)).completed
        = s.completed ++ s.pending ++ [w] := by
  refine ⟨rfl, rfl, rfl, rfl, fun w => ?_⟩
  simp [CudaStreamOwning.destruct, CudaStream.synchronize,
    cudaStreamSynchronize, cudaStreamDestroy, enqueueAsync]

/-- Mapping a function over an optional engine handle does not change
whether the handle is populated. -/
theorem isSome_map_mapper (o : Option Mapper) (f : Mapper → Mapper) :
    (o.map f).isSome = o.isSome := by
  cases o <;> rfl

/-- C1: In Dynamic mode, for every voxel that the unmasked engine's
freespace layer marks as free at the time `updateEsdf` is called, that
voxel does not appear as a distance-field site in the unmasked engine's
ESDF output, regardless of what the engine's own integration computed for
it (the state, and with it `candidateSites`, is universally quantified);
the exclusion predicate is the freespace layer as read at this call. -/
theorem updateEsdf_dynamic_excludes_freespace (st : MultiMapperState)
    (v : Voxel) (hdyn : st.mapping_type_ = MappingType.kDynamic)
    (hfree : st.unmasked_mapper_.freespace v = true) :
    (st.updateEsdf).unmasked_mapper_.esdfSites v = false := by
  have hd : isDynamicMapping st.mapping_type_ = true := by
    rw [hdyn]; rfl
  simp [MultiMapperState.updateEsdf, hd, Mapper.runEsdfUpdate, hfree]

/-- A concrete pixel correspondence for witness states: the identity. -/
def maskerId : ImageMasker :=
  { reproject := fun _ _ _ p => p }

/-- A concrete dynamics detector for witness states: detects nothing. -/
def detectorZero : DynamicsDetection :=
  { detect := fun _ _ _ _ _ => 0 }

/-- A concrete Dynamic-mode orchestrator state whose unmasked engine marks
every voxel free and whose own integration computed a site at every voxel. -/
def stC1 : MultiMapperState :=
  { MultiMapper.create MappingType.kDynamic EsdfMode.k3D MemoryType.kDevice
      cudaStreamCreate maskerId detectorZero with
    unmasked_mapper_ :=
      { Mapper.init with
        candidateSites := fun _ => true
      , freespace := fun _ => true } }

/-- Witness for C1: in the concrete state `stC1` the engine's own
integration computed a site at voxel (0,0,0), the freespace layer marks it
free, and after `updateEsdf` it is not a site. -/
theorem updateEsdf_dynamic_excludes_freespace_witness :
    stC1.mapping_type_ = MappingType.kDynamic ∧
    stC1.unmasked_mapper_.freespace (0, 0, 0) = true ∧
    stC1.unmasked_mapper_.candidateSites (0, 0, 0) = true ∧
    (stC1.updateEsdf).unmasked_mapper_.esdfSites (0, 0, 0) = false :=
  ⟨rfl, rfl, rfl,
   updateEsdf_dynamic_excludes_freespace stC1 (0, 0, 0) rfl rfl⟩

/-- The engine configuration of an orchestrator state is unchanged between
two states: same mapping mode and same populatedness of the masked-engine
handle (the unmasked engine is present by construction of the state type). -/
def sameEngineConfig (a b : MultiMapperState) : Prop :=
  a.mapping_type_ = b.mapping_type_ ∧
  a.masked_mapper_.isSome = b.masked_mapper_.isSome

/-- C5: Construction allocates the unmasked engine always and the masked
engine iff `isUsingBothMappers(mode)` holds, and the resulting
configuration (mapping mode and which of the two engine configurations is
active) is never changed by any subsequent operation: parameter setting,
both depth-integration overloads, both color-integration overloads, and
the ESDF update all preserve it (`updateMesh` is modelled as a pure query
and does not touch the state at all). -/
theorem engineConfiguration_fixed :
    (∀ (mt : MappingType) (em : EsdfMode) (mem : MemoryType)
       (cs : CudaStreamState) (masker : ImageMasker)
       (detector : DynamicsDetection),
       (MultiMapper.create mt em mem cs masker detector).unmasked_mapper_
         = Mapper.init ∧
       ((MultiMapper.create mt em mem cs masker detector).masked_mapper_).isSome
         = isUsingBothMappers mt) ∧
    (∀ (st : MultiMapperState) (p : MultiMapperParams),
       sameEngineConfig (st.setMultiMapperParams p) st) ∧
    (∀ (st : MultiMapperState) (u : MapperParams) (mp : Option MapperParams),
       sameEngineConfig (st.setMapperParams u mp) st) ∧
    (∀ (st : MultiMapperState) (f : DepthImage) (t : Transform) (c : Camera)
       (time : Option Int),
       sameEngineConfig (st.integrateDepth f t c time) st) ∧
    (∀ (st : MultiMapperState) (f : DepthImage) (mask : MonoImage)
       (t1 t2 : Transform) (c1 c2 : Camera),
       sameEngineConfig (st.integrateDepthMasked f mask t1 t2 c1 c2) st) ∧
    (∀ (st : MultiMapperState) (f : ColorImage) (t : Transform) (c : Camera),
       sameEngineConfig (st.integrateColor f t c) st) ∧
    (∀ (st : MultiMapperState) (f : ColorImage) (mask : MonoImage)
       (t : Transform) (c : Camera),
       sameEngineConfig (st.integrateColorMasked f mask t c) st) ∧
    (∀ st : MultiMapperState, sameEngineConfig st.updateEsdf st) := by
  refine ⟨fun mt em mem cs masker detector => ⟨rfl, ?_⟩,
    fun st p => ⟨rfl, rfl⟩, fun st u mp => ⟨rfl, ?_⟩,
    fun st f t c time => ⟨?_, ?_⟩, fun st f mask t1 t2 c1 c2 => ⟨?_, ?_⟩,
    fun st f t c => ⟨rfl, rfl⟩, fun st f mask t c => ⟨?_, ?_⟩,
    fun st => ⟨rfl, ?_⟩⟩
  · cases hb : isUsingBothMappers mt <;> simp [MultiMapper.create, hb]
  · simp only [MultiMapperState.setMapperParams]
    cases st.masked_mapper_ <;> cases mp <;> rfl
  · simp only [MultiMapperState.integrateDepth]
    split <;> rfl
  · simp only [MultiMapperState.integrateDepth]
    split <;> simp [isSome_map_mapper]
  · simp only [MultiMapperState.integrateDepthMasked]
    split <;> rfl
  · simp only [MultiMapperState.integrateDepthMasked]
    split <;> simp [isSome_map_mapper]
  · simp only [MultiMapperState.integrateColorMasked]
    split <;> rfl
  · simp only [MultiMapperState.integrateColorMasked]
    split <;> simp [isSome_map_mapper]
  · simp only [MultiMapperState.updateEsdf]
    split <;> simp [isSome_map_mapper]

/-- C8: Under kStaticTsdf mode, the single-frame `integrateDepth` never
mutates the masked engine (whose handle is left exactly as it was — in that
mode no masked engine exists, see C5/C10), and the unmasked engine receives
exactly one new frame: the full input frame, unsplit, every pixel valid and
carrying the input's depth value. -/
theorem integrateDepth_staticTsdf_masked_untouched (st : MultiMapperState)
    (f : DepthImage) (t : Transform) (c : Camera) (time : Option Int)
    (hmode : st.mapping_type_ = MappingType.kStaticTsdf) :
    (st.integrateDepth f t c time).masked_mapper_ = st.masked_mapper_ ∧
    (st.integrateDepth f t c time).unmasked_mapper_.depthFrames
      = st.unmasked_mapper_.depthFrames ++ [fullDepthFrame f] ∧
    ∀ p : Pixel, (fullDepthFrame f).pix p = some (f.pix p) := by
  have hd : isDynamicMapping st.mapping_type_ = false := by
    rw [hmode]; rfl
  refine ⟨?_, ?_, fun p => rfl⟩ <;>
    simp [MultiMapperState.integrateDepth, hd, Mapper.integrateDepthFrame]

/-- A concrete kStaticTsdf orchestrator state for the C8 witness. -/
def stC8 : MultiMapperState :=
  MultiMapper.create MappingType.kStaticTsdf EsdfMode.k3D MemoryType.kDevice
    cudaStreamCreate maskerId detectorZero

/-- A concrete 1-by-2 depth frame for witnesses. -/
def frameW : DepthImage :=
  { rows := 1, cols := 2, pix := fun p => 7 + p.2 }

/-- A concrete pose for witnesses. -/
def transformW : Transform :=
  { tx := 0, ty := 0, tz := 0 }

/-- Concrete camera intrinsics for witnesses. -/
def cameraW : Camera :=
  { fu := 1, fv := 1, cu := 0, cv := 0 }

/-- Witness for C8 at the concrete state `stC8` and frame `frameW`. -/
theorem integrateDepth_staticTsdf_masked_untouched_witness :
    stC8.mapping_type_ = MappingType.kStaticTsdf ∧
    ((stC8.integrateDepth frameW transformW cameraW none).masked_mapper_
       = stC8.masked_mapper_ ∧
     (stC8.integrateDepth frameW transformW cameraW none).unmasked_mapper_.depthFrames
       = stC8.unmasked_mapper_.depthFrames ++ [fullDepthFrame frameW] ∧
     ∀ p : Pixel, (fullDepthFrame frameW).pix p = some (frameW.pix p)) :=
  ⟨rfl, integrateDepth_staticTsdf_masked_untouched stC8 frameW transformW
    cameraW none rfl⟩

/-- C3: Under kHumanWithStaticTsdf, the dual-frame `integrateDepth` splits
the input losslessly: the masked engine receives exactly one new frame
holding exactly the depth values at pixels whose reprojected mask value
(the mask sampled through the depth-to-mask-camera correspondence supplied
via `T_CM_CD` and the two intrinsics) is positive, the unmasked engine
receives exactly the complementary frame, and at every pixel exactly one of
the two received frames carries the input's depth value while the other is
invalid there. -/
theorem integrateDepthMasked_partitions (st : MultiMapperState)
    (f : DepthImage) (mask : MonoImage) (tl tc : Transform)
    (dc mc : Camera) (mm : Mapper)
    (hmode : st.mapping_type_ = MappingType.kHumanWithStaticTsdf)
    (hmm : st.masked_mapper_ = some mm) :
    ∃ fM fU : SplitDepthImage,
      (st.integrateDepthMasked f mask tl tc dc mc).masked_mapper_
        = some (mm.integrateDepthFrame fM) ∧
      (st.integrateDepthMasked f mask tl tc dc mc).unmasked_mapper_
        = st.unmasked_mapper_.integrateDepthFrame fU ∧
      ∀ p : Pixel,
        (0 < mask.pix (st.image_masker_.reproject tc dc mc p) →
           fM.pix p = some (f.pix p) ∧ fU.pix p = none) ∧
        (mask.pix (st.image_masker_.reproject tc dc mc p) = 0 →
           fU.pix p = some (f.pix p) ∧ fM.pix p = none) := by
  have hh : isHumanMapping st.mapping_type_ = true := by
    rw [hmode]; rfl
  refine ⟨(splitDepthImage f (reprojectedMaskAt mask
      (st.image_masker_.reproject tc dc mc))).1,
    (splitDepthImage f (reprojectedMaskAt mask
      (st.image_masker_.reproject tc dc mc))).2, ?_, ?_, fun p => ⟨?_, ?_⟩⟩
  · simp [MultiMapperState.integrateDepthMasked, hh, hmm]
  · simp [MultiMapperState.integrateDepthMasked, hh]
  · intro hp
    constructor <;> simp [splitDepthImage, reprojectedMaskAt, hp]
  · intro hp
    constructor <;> simp [splitDepthImage, reprojectedMaskAt, hp]

/-- A concrete kHumanWithStaticTsdf orchestrator state for the C3 witness. -/
def stC3 : MultiMapperState :=
  MultiMapper.create MappingType.kHumanWithStaticTsdf EsdfMode.k3D
    MemoryType.kDevice cudaStreamCreate maskerId detectorZero

/-- A concrete 1-by-2 mask for the C3 witness: pixel (0,0) masked, pixel
(0,1) non-masked. -/
def maskW : MonoImage :=
  { rows := 1, cols := 2, pix := fun p => if p.2 = 0 then 1 else 0 }

/-- Witness for C3 at the concrete state `stC3`, frame `frameW` and mask
`maskW` (with the identity pixel correspondence of `maskerId`). -/
theorem integrateDepthMasked_partitions_witness :
    stC3.mapping_type_ = MappingType.kHumanWithStaticTsdf ∧
    stC3.masked_mapper_ = some Mapper.init ∧
    (∃ fM fU : SplitDepthImage,
      (stC3.integrateDepthMasked frameW maskW transformW transformW cameraW
          cameraW).masked_mapper_
        = some (Mapper.init.integrateDepthFrame fM) ∧
      (stC3.integrateDepthMasked frameW maskW transformW transformW cameraW
          cameraW).unmasked_mapper_
        = stC3.unmasked_mapper_.integrateDepthFrame fU ∧
      ∀ p : Pixel,
        (0 < maskW.pix (stC3.image_masker_.reproject transformW cameraW
            cameraW p) →
           fM.pix p = some (frameW.pix p) ∧ fU.pix p = none) ∧
        (maskW.pix (stC3.image_masker_.reproject transformW cameraW
            cameraW p) = 0 →
           fU.pix p = some (frameW.pix p) ∧ fM.pix p = none)) :=
  ⟨rfl, rfl,
   integrateDepthMasked_partitions stC3 frameW maskW transformW transformW
     cameraW cameraW Mapper.init rfl rfl⟩

/-- C9: For every state whose configured bandwidth estimate is positive,
`updateMesh` with the full-mesh flag set returns the serialized full mesh
with no truncation (its size equals the full mesh's size), and `updateMesh`
with the flag unset returns a serialized mesh whose size is bounded by the
budget derived from the configured estimate. -/
theorem updateMesh_bandwidth_policy (st : MultiMapperState)
    (maybe_T_L_C : Option Transform)
    (h : 0 < st.mesh_bandwidth_limit_mbps) :
    (st.updateMesh maybe_T_L_C true).blocks.length
      = st.serializedFullMesh.length ∧
    (st.updateMesh maybe_T_L_C false).blocks.length
      ≤ serializedMeshSizeBudget st.mesh_bandwidth_limit_mbps := by
  constructor
  · simp [MultiMapperState.updateMesh]
  · simp [MultiMapperState.updateMesh, h]

/-- A concrete kStaticTsdf orchestrator state with a 5-block mesh and a
configured bandwidth estimate whose budget is 2 blocks. -/
def stC9 : MultiMapperState :=
  { MultiMapper.create MappingType.kStaticTsdf EsdfMode.k3D MemoryType.kDevice
      cudaStreamCreate maskerId detectorZero with
    unmasked_mapper_ := { Mapper.init with meshBlocks := [0, 1, 2, 3, 4] }
  , mesh_bandwidth_limit_mbps := 2 }

/-- Witness for C9 at the concrete state `stC9`: the full mesh keeps all 5
blocks while the bandwidth-limited mesh is bounded by the budget of 2. -/
theorem updateMesh_bandwidth_policy_witness :
    0 < stC9.mesh_bandwidth_limit_mbps ∧
    ((stC9.updateMesh none true).blocks.length
       = stC9.serializedFullMesh.length ∧
     (stC9.updateMesh none false).blocks.length
       ≤ serializedMeshSizeBudget stC9.mesh_bandwidth_limit_mbps) :=
  ⟨by decide, updateMesh_bandwidth_policy stC9 none (by decide)⟩

/-- C10: The const accessor `masked_mapper()` dereferences the stored
handle with no check: on a freshly constructed orchestrator its dereference
is well-defined (returns an engine) exactly when `isUsingBothMappers` holds
for the configured mode, and for the two single-engine modes (kStaticTsdf
and kStaticOccupancy) the accessor dereferences an absent (null) engine
handle, modelled as `none`. -/
theorem maskedMapperAccess_defined_iff_bothMappers (mt : MappingType)
    (em : EsdfMode) (mem : MemoryType) (cs : CudaStreamState)
    (masker : ImageMasker) (detector : DynamicsDetection) :
    ((MultiMapper.create mt em mem cs masker
        detector).maskedMapperAccess).isSome = isUsingBothMappers mt ∧
    (MultiMapper.create MappingType.kStaticTsdf em mem cs masker
        detector).maskedMapperAccess = none ∧
    (MultiMapper.create MappingType.kStaticOccupancy em mem cs masker
        detector).maskedMapperAccess = none := by
  refine ⟨?_, rfl, rfl⟩
  cases hb : isUsingBothMappers mt <;>
    simp [MultiMapper.create, MultiMapperState.maskedMapperAccess, hb]
